import Mathlib

/-!
Verification development for `GenericInstrumentConnection.py` (repository
`ircs`), a remote-control client for electronic instruments over TCPIP or
GPIB-over-Ethernet.

Python strings are modelled as `List Char` (`Str`).  Socket I/O is modelled
by an environment value (`ConnBehavior`) describing, for one opened
connection, whether `connect` / `sendall` raise and the successive outcomes
of `recv` calls (either a received chunk or a raised exception, both
carrying the text `str(err.args[0])` that the `except` handler would
extract).  Each transfer also produces a trace of the socket operations it
performed, so that properties about which frames are sent and whether the
socket is shut down / closed are statable.  Timeouts configure the socket
only and are not modelled; a timeout firing is one of the possible `recv` /
`connect` exceptions.  Raised Python exceptions are modelled by
`Except PyErr`; an execution whose `recv` loop would keep reading past the
supplied list of `recv` outcomes (i.e. block or busy-loop forever) is
modelled as `none`.
-/

/-- Python `str` modelled as a list of characters. -/
abbrev Str := List Char

/-- Python exceptions raised (uncaught) by the code under study. -/
inductive PyErr where
  | indexError (msg : Str)
  | valueError (msg : Str)
  | typeError (msg : Str)
  | attributeError (msg : Str)
  | connectionError (msg : Str)
deriving DecidableEq, Repr

/-- Python values returned by the public `write`/`query` API: either a
string or a two-element list `[statusCode, payload]`. -/
inductive PyVal where
  | int (n : Int)
  | str (s : Str)
  | list2 (a b : PyVal)
deriving DecidableEq, Repr

instance {ε α : Type} [DecidableEq ε] [DecidableEq α] : DecidableEq (Except ε α) :=
  fun a b =>
    match a, b with
    | .ok x, .ok y =>
      if h : x = y then .isTrue (by rw [h]) else .isFalse (fun hc => by cases hc; exact h rfl)
    | .error x, .error y =>
      if h : x = y then .isTrue (by rw [h]) else .isFalse (fun hc => by cases hc; exact h rfl)
    | .ok _, .error _ => .isFalse (fun hc => Except.noConfusion hc)
    | .error _, .ok _ => .isFalse (fun hc => Except.noConfusion hc)

/-- Socket operations performed by one `__TcpipTransfer` call, recorded as a
trace: `connect`/`send` are recorded when the operation succeeds, `recv` for
each `recv` call, `shutdown`/`close` when executed. -/
inductive TraceEv where
  | connect
  | send (data : Str)
  | recv
  | shutdown
  | close
deriving DecidableEq, Repr

/-- Behaviour of the network environment for one opened socket connection:
whether `connect` raises (with the given exception text), whether `sendall`
raises, and the successive outcomes of `recv` calls (`.error m` = the call,
or the subsequent `decode`, raises with text `m`; `.ok chunk` = the decoded
chunk received). -/
structure ConnBehavior where
  connectExc : Option Str
  sendExc : Option Str
  recvs : List (Except Str Str)

/-- `self.message_termination_character`, set to `'\n'` in `__init__`. -/
def termChar : Char := '\n'

/-- The receive loop of `__TcpipTransfer`: repeatedly `recv` into an
accumulating buffer `recv_msg`, breaking when `recv_msg[-1]` equals the
termination character; `recv_msg[-1]` on an empty buffer raises
`IndexError('string index out of range')`.  Returns the number of `recv`
calls performed and either the accumulated text or the text of the raised
exception; `none` when the supplied `recv` outcomes are exhausted before the
loop breaks (the real loop would keep blocking/reading). -/
def recvLoop : List (Except Str Str) → Str → Option (Nat × Except Str Str)
  | [], _ => none
  | .error m :: _, _ => some (1, .error m)
  | .ok chunk :: rest, acc =>
    let acc' := acc ++ chunk
    match acc'.getLast? with
    | none => some (1, .error "string index out of range".toList)
    | some c =>
      if c = termChar then some (1, .ok acc')
      else
        match recvLoop rest acc' with
        | none => none
        | some (n, r) => some (n + 1, r)

/-- The `try` body of `__TcpipTransfer`: connect, `sendall` the message,
optionally run the receive loop, then `shutdown`+`close` and return
`[0, recv_msg]`.  `.error m` is an exception escaping the body with
`str(err.args[0]) = m`. -/
def tcpipTransferBody (cb : ConnBehavior) (message : Str) (read_response : Bool) :
    Option (List TraceEv × Except Str (Int × Str)) :=
  match cb.connectExc with
  | some m => some ([], .error m)
  | none =>
    match cb.sendExc with
    | some m => some ([.connect], .error m)
    | none =>
      if read_response then
        match recvLoop cb.recvs [] with
        | none => none
        | some (n, .error m) =>
          some (.connect :: .send message :: List.replicate n .recv, .error m)
        | some (n, .ok msg) =>
          some ((.connect :: .send message :: List.replicate n .recv) ++ [.shutdown, .close],
                .ok (0, msg))
      else
        some ([.connect, .send message, .shutdown, .close], .ok (0, []))

/-- Text prepended by the `except` handler of `__TcpipTransfer`. -/
def tcpipErrTag : Str := "[ERROR] during TCPIP transfer: ".toList

/-- `__TcpipTransfer`: the `try` body wrapped by
`except Exception as err: return [-1, '[ERROR] during TCPIP transfer: ' + str(err.args[0])]`. -/
def tcpipTransfer (cb : ConnBehavior) (message : Str) (read_response : Bool) :
    Option (List TraceEv × Int × Str) :=
  (tcpipTransferBody cb message read_response).map fun tr =>
    match tr.2 with
    | .ok s => (tr.1, s)
    | .error m => (tr.1, -1, tcpipErrTag ++ m)

/-- First step of `message.split('|', 1)`: `none` when `'|'` does not occur,
otherwise the parts before and after the first `'|'`. -/
def splitBarAux : Str → Option (Str × Str)
  | [] => none
  | c :: cs =>
    if c = '|' then some ([], cs)
    else
      match splitBarAux cs with
      | none => none
      | some (a, b) => some (c :: a, b)

/-- Python whitespace stripped by `int()`. -/
def isPySpace (c : Char) : Bool :=
  c = ' ' || c = '\t' || c = '\n' || c = '\r' || c = '\x0b' || c = '\x0c'

/-- Strip leading and trailing Python whitespace. -/
def pyStrip (cs : Str) : Str :=
  ((cs.dropWhile isPySpace).reverse.dropWhile isPySpace).reverse

/-- Valid digit sequence for Python `int()` after sign removal: nonempty
decimal digits, with single underscores allowed only between digits. -/
def pyDigitsValid (cs : Str) : Bool :=
  !cs.isEmpty
    && (match cs.head? with | some c => c.isDigit | none => false)
    && (match cs.getLast? with | some c => c.isDigit | none => false)
    && cs.all (fun c => c.isDigit || c = '_')
    && (cs.zip cs.tail).all (fun p => !(p.1 = '_' && p.2 = '_'))

/-- Numeric value of a digit sequence (underscores removed beforehand). -/
def digitsToNat (cs : Str) : Nat :=
  cs.foldl (fun a c => a * 10 + (c.toNat - 48)) 0

/-- Python `int(s)` for decimal strings: strip whitespace, optional sign,
digits (underscores between digits allowed); `none` when `int` would raise
`ValueError`.  (Non-ASCII digit forms are not modelled.) -/
def pyInt (s : Str) : Option Int :=
  match pyStrip s with
  | '+' :: rest => if pyDigitsValid rest then some (digitsToNat (rest.filter (· ≠ '_'))) else none
  | '-' :: rest =>
    if pyDigitsValid rest then some (-(digitsToNat (rest.filter (· ≠ '_')) : Int)) else none
  | cs => if pyDigitsValid cs then some (digitsToNat (cs.filter (· ≠ '_'))) else none

/-- The `ValueError` message of CPython `int()` (repr simplified to plain
single quotes around the offending text). -/
def intErrMsg (s : Str) : Str :=
  "invalid literal for int() with base 10: ".toList ++ '\'' :: s ++ ['\'']

/-- `__ParseGpiboeReceiveMessage`: split on the first `'|'` (remainder empty
when `'|'` is absent) and convert the first part with `int()`, which raises
`ValueError` on a non-integer prefix. -/
def parseGpiboeReceiveMessage (message : Str) : Except PyErr (Int × Str) :=
  match splitBarAux message with
  | some (a, b) =>
    match pyInt a with
    | some k => .ok (k, b)
    | none => .error (.valueError (intErrMsg a))
  | none =>
    match pyInt message with
    | some k => .ok (k, [])
    | none => .error (.valueError (intErrMsg message))

/-- The gateway Write frame `'W|' + str(gpib_address) + '|' + message`
(`addr` is already the `str()` of the address). -/
def wFrame (addr : Str) (message : Str) : Str :=
  "W|".toList ++ addr ++ '|' :: message

/-- The gateway Read frame `'R|' + str(gpib_address) + termination`. -/
def rFrame (addr : Str) : Str :=
  "R|".toList ++ addr ++ [termChar]

/-- `__GpiboeTransfer`: send the Write frame (always reading the gateway's
acknowledgement), parse the acknowledgement, and — only when its status is 0
and a response is requested — send the Read frame and parse its reply.
`cb1`/`cb2` are the environment behaviours of the first and second opened
connection.  `.error` outcomes are uncaught Python exceptions
(`ValueError` from parsing). -/
def gpiboeTransfer (addr : Str) (cb1 cb2 : ConnBehavior) (message : Str)
    (read_response : Bool) : Option (List TraceEv × Except PyErr (Int × Str)) :=
  match tcpipTransfer cb1 (wFrame addr message) true with
  | none => none
  | some (tr1, code, payload) =>
    if code ≠ 0 then some (tr1, .ok (code, payload))
    else
      match parseGpiboeReceiveMessage payload with
      | .error e => some (tr1, .error e)
      | .ok gst =>
        if gst.1 ≠ 0 then some (tr1, .ok gst)
        else if read_response then
          match tcpipTransfer cb2 (rFrame addr) true with
          | none => none
          | some (tr2, code2, payload2) =>
            if code2 ≠ 0 then some (tr1 ++ tr2, .ok (code2, payload2))
            else
              match parseGpiboeReceiveMessage payload2 with
              | .error e => some (tr1 ++ tr2, .error e)
              | .ok g2 => some (tr1 ++ tr2, .ok g2)
        else some (tr1, .ok gst)

/-- `__ValidateGpibAddress` on an integer address: in range 1–30. -/
def validateGpibAddressInt (a : Int) : Bool :=
  decide (1 ≤ a) && decide (a ≤ 30)

/-- `__ValidateGpibAddress` as called by `__init__` (the address may be
Python `None`, on which `>=` raises `TypeError`). -/
def validateGpibAddress : Option Int → Except PyErr Bool
  | none =>
    .error (.typeError "'>=' not supported between instances of 'NoneType' and 'int'".toList)
  | some a => .ok (validateGpibAddressInt a)

/-- Connection state held by a `GenericInstrumentConnection` object. -/
structure GIC where
  connection_type : Str
  device_ip_address : Option Str
  device_port : Int
  device_gpib_address : Option Int
deriving DecidableEq, Repr

/-- Python `str()` of an `Optional[int]` (`None` prints as `"None"`). -/
def pyStrOptInt : Option Int → Str
  | none => "None".toList
  | some n => (toString n).toList

/-- Python `str()` of an `Optional[str]`. -/
def pyStrOptStr : Option Str → Str
  | none => "None".toList
  | some s => s

/-- `__init__`: reject any connection type other than `'tcpip'`/`'gpiboe'`
with `AttributeError`; for `'gpiboe'`, validate the GPIB address and raise
`ValueError` when out of range.  Performs no I/O (a pure construction). -/
def GIC.init (connection_type : Option Str) (device_ip_address : Option Str)
    (device_gpib_address : Option Int) : Except PyErr GIC :=
  if connection_type ≠ some "tcpip".toList ∧ connection_type ≠ some "gpiboe".toList then
    .error (.attributeError
      ("Connection type \"".toList ++ pyStrOptStr connection_type ++ "\" not supported!".toList))
  else
    ((if connection_type = some "gpiboe".toList then
      match validateGpibAddress device_gpib_address with
      | .error e => .error e
      | .ok true => .ok ()
      | .ok false => .error (.valueError "GPIB address out of range!".toList)
    else .ok ()) : Except PyErr Unit).map fun _ =>
      { connection_type := pyStrOptStr connection_type
        device_ip_address := device_ip_address
        device_port := 5025
        device_gpib_address := device_gpib_address }

/-- Classmethod `tcpip`. -/
def GIC.tcpip (device_ip_address : Str) : Except PyErr GIC :=
  GIC.init (some "tcpip".toList) (some device_ip_address) none

/-- Classmethod `gpiboe`. -/
def GIC.gpiboe (device_gpib_address : Int) (gpib_gateway_ip_address : Str) : Except PyErr GIC :=
  GIC.init (some "gpiboe".toList) (some gpib_gateway_ip_address) (some device_gpib_address)

/-- `__HandleStatus`: a status list with code 0 is returned unchanged (the
whole two-element list); any other code raises
`ConnectionError('ERROR: ' + str(code) + ', ' + payload)`. -/
def handleStatus (status : Int × Str) : Except PyErr PyVal :=
  if status.1 = 0 then .ok (.list2 (.int status.1) (.str status.2))
  else .error (.connectionError
    ("ERROR: ".toList ++ (toString status.1).toList ++ ", ".toList ++ status.2))

/-- Python `message[-1]`: last character, `IndexError` on the empty string. -/
def pyLastChar (s : Str) : Except PyErr Char :=
  match s.getLast? with
  | none => .error (.indexError "string index out of range".toList)
  | some c => .ok c

/-- The terminator-appending step shared by `write` and `query`. -/
def terminate (message : Str) : Str :=
  if message.getLast? = some termChar then message else message ++ [termChar]

/-- Transport dispatch shared by `write` and `query`:
`self.connection_type == 'gpiboe'` selects the gateway transfer, anything
else the direct transfer. -/
def transferDispatch (g : GIC) (cb1 cb2 : ConnBehavior) (message : Str)
    (read_response : Bool) : Option (List TraceEv × Except PyErr (Int × Str)) :=
  if g.connection_type = "gpiboe".toList then
    gpiboeTransfer (pyStrOptInt g.device_gpib_address) cb1 cb2 message read_response
  else
    (tcpipTransfer cb1 message read_response).map fun tr => (tr.1, .ok tr.2)

/-- `write`: check/append the terminator (raising `IndexError` on the empty
message before any transport call), transfer without reading a response,
and funnel the status through `__HandleStatus`. -/
def GIC.write (g : GIC) (cb1 cb2 : ConnBehavior) (message : Str) :
    Option (List TraceEv × Except PyErr PyVal) :=
  match pyLastChar message with
  | .error e => some ([], .error e)
  | .ok _ =>
    (transferDispatch g cb1 cb2 (terminate message) false).map fun tr =>
      match tr.2 with
      | .error e => (tr.1, .error e)
      | .ok s => (tr.1, handleStatus s)

/-- `query`: like `write` but requesting a response. -/
def GIC.query (g : GIC) (cb1 cb2 : ConnBehavior) (message : Str) :
    Option (List TraceEv × Except PyErr PyVal) :=
  match pyLastChar message with
  | .error e => some ([], .error e)
  | .ok _ =>
    (transferDispatch g cb1 cb2 (terminate message) true).map fun tr =>
      match tr.2 with
      | .error e => (tr.1, .error e)
      | .ok s => (tr.1, handleStatus s)

/-- The message data of the `send` events of a trace, in order. -/
def sendsOf (tr : List TraceEv) : List Str :=
  tr.filterMap fun e =>
    match e with
    | .send d => some d
    | _ => none

/-- Whether `pat` occurs as a contiguous segment of `s`. -/
def hasSegment (pat : Str) : Str → Bool
  | [] => pat.isEmpty
  | c :: rest => List.isPrefixOf pat (c :: rest) || hasSegment pat rest

/-- Modelled from the spec: "the bytes received up to and including the
first occurrence of the terminator character in the byte stream" (for
comparison with what the code actually returns). -/
def upToFirstTerminator : Str → Str
  | [] => []
  | c :: cs => if c = termChar then [c] else c :: upToFirstTerminator cs

/-! ## Helper lemmas -/

lemma splitBarAux_no_bar (a : Str) (h : '|' ∉ a) : splitBarAux a = none := by
  induction a with
  | nil => rfl
  | cons c cs ih =>
    have hc : c ≠ '|' := fun e => h (e ▸ List.mem_cons_self c cs)
    simp only [splitBarAux]
    rw [if_neg hc, ih (fun hm => h (List.mem_cons_of_mem c hm))]

lemma splitBarAux_first (a b : Str) (h : '|' ∉ a) : splitBarAux (a ++ '|' :: b) = some (a, b) := by
  induction a with
  | nil => simp [splitBarAux]
  | cons c cs ih =>
    have hc : c ≠ '|' := fun e => h (e ▸ List.mem_cons_self c cs)
    rw [List.cons_append]
    simp only [splitBarAux]
    rw [if_neg hc, ih (fun hm => h (List.mem_cons_of_mem c hm))]

/-! ## Claims -/

/-- C4: construction succeeds for exactly the connection kinds `tcpip` and
`gpiboe` and fails with a configuration error (`AttributeError`) for every
other kind; for `gpiboe`, construction succeeds iff `1 ≤ gpibAddress ≤ 30`
(boundaries 1 and 30 succeed, 0 and 31 fail with `ValueError`); `GIC.init`
is a pure function, so validation involves no I/O. -/
theorem C4_thm :
    (∀ ct ip gp, ct ≠ some "tcpip".toList → ct ≠ some "gpiboe".toList →
      GIC.init ct ip gp = .error (.attributeError
        ("Connection type \"".toList ++ pyStrOptStr ct ++ "\" not supported!".toList))) ∧
    (∀ ip gp, (∃ g, GIC.init (some "gpiboe".toList) ip (some gp) = .ok g) ↔
      (1 ≤ gp ∧ gp ≤ 30)) ∧
    (∀ ip, ∃ g, GIC.init (some "tcpip".toList) ip none = .ok g) ∧
    (∃ g, GIC.gpiboe 1 "gw".toList = .ok g) ∧
    (∃ g, GIC.gpiboe 30 "gw".toList = .ok g) ∧
    GIC.gpiboe 0 "gw".toList = .error (.valueError "GPIB address out of range!".toList) ∧
    GIC.gpiboe 31 "gw".toList = .error (.valueError "GPIB address out of range!".toList) := by
  have init_gpiboe_eq : ∀ (ip : Option Str) (gp : Int),
      GIC.init (some "gpiboe".toList) ip (some gp) =
        if validateGpibAddressInt gp then
          .ok ⟨"gpiboe".toList, ip, 5025, some gp⟩
        else .error (.valueError "GPIB address out of range!".toList) := by
    intro ip gp
    unfold GIC.init
    rw [if_neg (fun hc => hc.2 rfl)]
    simp only [if_pos rfl, validateGpibAddress]
    cases h : validateGpibAddressInt gp <;> simp [h, pyStrOptStr, Except.map]
  refine ⟨?_, ?_, ?_, ?_, ?_, ?_, ?_⟩
  · intro ct ip gp h1 h2
    unfold GIC.init
    rw [if_pos ⟨h1, h2⟩]
  · intro ip gp
    rw [init_gpiboe_eq]
    constructor
    · rintro ⟨g, hg⟩
      by_cases h : validateGpibAddressInt gp
      · have := h
        simp only [validateGpibAddressInt, Bool.and_eq_true, decide_eq_true_eq] at this
        exact this
      · rw [if_neg h] at hg
        exact absurd hg (by simp)
    · intro h
      have hv : validateGpibAddressInt gp = true := by
        unfold validateGpibAddressInt
        rw [decide_eq_true h.1, decide_eq_true h.2]
        rfl
      rw [if_pos hv]
      exact ⟨_, rfl⟩
  · intro ip
    unfold GIC.init
    rw [if_neg (fun hc => hc.1 rfl)]
    simp [Except.map]
  · exact ⟨_, rfl⟩
  · exact ⟨_, rfl⟩
  · rfl
  · rfl

/-- Witness for C4 at concrete inputs. -/
theorem C4_wit :
    GIC.init (some "bogus".toList) none none = .error (.attributeError
      ("Connection type \"".toList ++ pyStrOptStr (some "bogus".toList) ++
        "\" not supported!".toList)) ∧
    ((∃ g, GIC.init (some "gpiboe".toList) (some "gw".toList) (some 7) = .ok g) ↔
      (1 ≤ (7 : Int) ∧ (7 : Int) ≤ 30)) :=
  ⟨C4_thm.1 (some "bogus".toList) none none (by decide) (by decide),
   C4_thm.2.1 (some "gw".toList) 7⟩

/-- C7: gateway reply parsing splits on the first `'|'` only: `"0|3.14159"`
parses to status 0 with payload `"3.14159"`, a reply without `'|'` parses to
its integer status with empty payload, and in general a reply
`a ++ "|" ++ b` with integer prefix `a` (no `'|'` in `a`) parses to
`(int(a), b)` even when `b` contains further `'|'` characters. -/
theorem C7_thm :
    parseGpiboeReceiveMessage "0|3.14159".toList = .ok (0, "3.14159".toList) ∧
    parseGpiboeReceiveMessage "0".toList = .ok (0, []) ∧
    (∀ a b k, '|' ∉ a → pyInt a = some k →
      parseGpiboeReceiveMessage (a ++ '|' :: b) = .ok (k, b)) ∧
    (∀ a k, '|' ∉ a → pyInt a = some k → parseGpiboeReceiveMessage a = .ok (k, [])) := by
  refine ⟨by decide, by decide, ?_, ?_⟩
  · intro a b k h hk
    unfold parseGpiboeReceiveMessage
    simp only [splitBarAux_first a b h, hk]
  · intro a k h hk
    unfold parseGpiboeReceiveMessage
    simp only [splitBarAux_no_bar a h, hk]

/-- Witness for C7: the remainder may itself contain `'|'`. -/
theorem C7_wit :
    parseGpiboeReceiveMessage ("42".toList ++ '|' :: "x|y".toList) = .ok (42, "x|y".toList) :=
  C7_thm.2.2.1 "42".toList "x|y".toList 42 (by decide) (by decide)

/-- C9: on the empty command string, both `write` and `query` raise
`IndexError('string index out of range')` from the `message[-1]` terminator
check, with an empty socket-operation trace (no transport call is made). -/
theorem C9_thm : ∀ (g : GIC) (cb1 cb2 : ConnBehavior),
    g.write cb1 cb2 [] = some ([], .error (.indexError "string index out of range".toList)) ∧
    g.query cb1 cb2 [] = some ([], .error (.indexError "string index out of range".toList)) := by
  intro g cb1 cb2
  exact ⟨rfl, rfl⟩

/-- C2: whenever the `try` body of the direct transport raises (connect,
send, receive, or the empty-buffer index check), `__TcpipTransfer` returns
the structured result `[-1, '[ERROR] during TCPIP transfer: ' + detail]`
as a normal return value — a non-empty payload containing `"ERROR"` — with
the same trace, instead of propagating the exception. -/
theorem C2_thm : ∀ (cb : ConnBehavior) (message : Str) (rr : Bool) (tr : List TraceEv) (m : Str),
    tcpipTransferBody cb message rr = some (tr, .error m) →
    tcpipTransfer cb message rr = some (tr, -1, tcpipErrTag ++ m) ∧
    tcpipErrTag ++ m ≠ [] ∧
    hasSegment "ERROR".toList (tcpipErrTag ++ m) = true := by
  intro cb message rr tr m h
  refine ⟨?_, ?_, ?_⟩
  · unfold tcpipTransfer
    rw [h]
    rfl
  · simp [tcpipErrTag]
  · rfl

/-- Witness for C2: a refused connection. -/
theorem C2_wit :
    tcpipTransferBody ⟨some "Connection refused".toList, none, []⟩ "CMD\n".toList true =
      some ([], .error "Connection refused".toList) ∧
    (tcpipTransfer ⟨some "Connection refused".toList, none, []⟩ "CMD\n".toList true =
      some ([], -1, tcpipErrTag ++ "Connection refused".toList) ∧
     tcpipErrTag ++ "Connection refused".toList ≠ [] ∧
     hasSegment "ERROR".toList (tcpipErrTag ++ "Connection refused".toList) = true) :=
  ⟨rfl, C2_thm _ _ _ _ _ rfl⟩

lemma sendsOf_append (l1 l2 : List TraceEv) : sendsOf (l1 ++ l2) = sendsOf l1 ++ sendsOf l2 :=
  List.filterMap_append l1 l2 _

lemma sendsOf_replicate_recv (n : Nat) : sendsOf (List.replicate n .recv) = [] := by
  induction n with
  | zero => rfl
  | succ k ih =>
    rw [List.replicate_succ]
    exact ih

lemma tcpipTransferBody_sends (cb : ConnBehavior) (m : Str) (rr : Bool) (tr : List TraceEv)
    (r : Except Str (Int × Str)) (h : tcpipTransferBody cb m rr = some (tr, r)) :
    sendsOf tr = [] ∨ sendsOf tr = [m] := by
  unfold tcpipTransferBody at h
  split at h
  · simp only [Option.some.injEq, Prod.mk.injEq] at h
    obtain ⟨h1, -⟩ := h
    subst h1
    left; rfl
  · split at h
    · simp only [Option.some.injEq, Prod.mk.injEq] at h
      obtain ⟨h1, -⟩ := h
      subst h1
      left; rfl
    · split at h
      · split at h
        · exact Option.noConfusion h
        · simp only [Option.some.injEq, Prod.mk.injEq] at h
          obtain ⟨h1, -⟩ := h
          subst h1
          right
          simp [sendsOf, List.filterMap_cons, sendsOf_replicate_recv]
        · simp only [Option.some.injEq, Prod.mk.injEq] at h
          obtain ⟨h1, -⟩ := h
          subst h1
          right
          have := sendsOf_replicate_recv
          simp [sendsOf_append, sendsOf, List.filterMap_cons,
            List.filterMap_replicate]
      · simp only [Option.some.injEq, Prod.mk.injEq] at h
        obtain ⟨h1, -⟩ := h
        subst h1
        right; rfl

lemma tcpipTransferBody_ok_sends (cb : ConnBehavior) (m : Str) (rr : Bool) (tr : List TraceEv)
    (s : Int × Str) (h : tcpipTransferBody cb m rr = some (tr, .ok s)) :
    sendsOf tr = [m] := by
  unfold tcpipTransferBody at h
  split at h
  · simp at h
  · split at h
    · simp at h
    · split at h
      · split at h
        · exact Option.noConfusion h
        · simp at h
        · simp only [Option.some.injEq, Prod.mk.injEq] at h
          obtain ⟨h1, -⟩ := h
          subst h1
          simp [sendsOf_append, sendsOf, List.filterMap_cons, List.filterMap_replicate]
      · simp only [Option.some.injEq, Prod.mk.injEq] at h
        obtain ⟨h1, -⟩ := h
        subst h1
        rfl

lemma tcpipTransferBody_ok_code (cb : ConnBehavior) (m : Str) (rr : Bool) (tr : List TraceEv)
    (s : Int × Str) (h : tcpipTransferBody cb m rr = some (tr, .ok s)) : s.1 = 0 := by
  unfold tcpipTransferBody at h
  split at h
  · simp at h
  · split at h
    · simp at h
    · split at h
      · split at h
        · exact Option.noConfusion h
        · simp at h
        · simp only [Option.some.injEq, Prod.mk.injEq, Except.ok.injEq] at h
          rw [← h.2]
      · simp only [Option.some.injEq, Prod.mk.injEq, Except.ok.injEq] at h
        rw [← h.2]

lemma tcpipTransfer_inv (cb : ConnBehavior) (m : Str) (rr : Bool) (tr : List TraceEv)
    (c : Int) (p : Str) (h : tcpipTransfer cb m rr = some (tr, c, p)) :
    tcpipTransferBody cb m rr = some (tr, .ok (c, p)) ∨
    (c = -1 ∧ ∃ em, p = tcpipErrTag ++ em ∧ tcpipTransferBody cb m rr = some (tr, .error em)) := by
  unfold tcpipTransfer at h
  cases hb : tcpipTransferBody cb m rr with
  | none => rw [hb] at h; exact Option.noConfusion h
  | some x =>
    obtain ⟨tr', r⟩ := x
    rw [hb] at h
    cases r with
    | ok s =>
      simp only [Option.map_some'] at h
      simp only [Option.some.injEq, Prod.mk.injEq] at h
      obtain ⟨h1, h2⟩ := h
      subst h1
      subst h2
      exact Or.inl rfl
    | error em =>
      simp only [Option.map_some'] at h
      simp only [Option.some.injEq, Prod.mk.injEq] at h
      obtain ⟨h1, h2, h3⟩ := h
      subst h1
      exact Or.inr ⟨h2.symm, em, h3.symm, rfl⟩

lemma tcpipTransfer_zero_inv (cb : ConnBehavior) (m : Str) (rr : Bool) (tr : List TraceEv)
    (p : Str) (h : tcpipTransfer cb m rr = some (tr, 0, p)) :
    tcpipTransferBody cb m rr = some (tr, .ok (0, p)) := by
  cases tcpipTransfer_inv cb m rr tr 0 p h with
  | inl h' => exact h'
  | inr h' => exact absurd h'.1 (by decide)

lemma tcpipTransfer_sends (cb : ConnBehavior) (m : Str) (rr : Bool) (tr : List TraceEv)
    (c : Int) (p : Str) (h : tcpipTransfer cb m rr = some (tr, c, p)) :
    sendsOf tr = [] ∨ sendsOf tr = [m] := by
  cases tcpipTransfer_inv cb m rr tr c p h with
  | inl h' => exact tcpipTransferBody_sends cb m rr tr _ h'
  | inr h' =>
    obtain ⟨-, em, -, h'⟩ := h'
    exact tcpipTransferBody_sends cb m rr tr _ h'

lemma tcpipTransfer_zero_sends (cb : ConnBehavior) (m : Str) (rr : Bool) (tr : List TraceEv)
    (p : Str) (h : tcpipTransfer cb m rr = some (tr, 0, p)) : sendsOf tr = [m] :=
  tcpipTransferBody_ok_sends cb m rr tr _ (tcpipTransfer_zero_inv cb m rr tr p h)

lemma tcpipTransferBody_ok_trace (cb : ConnBehavior) (m : Str) (rr : Bool) (tr : List TraceEv)
    (s : Int × Str) (h : tcpipTransferBody cb m rr = some (tr, .ok s)) :
    ∃ pre, tr = pre ++ [TraceEv.shutdown, TraceEv.close] := by
  unfold tcpipTransferBody at h
  split at h
  · simp at h
  · split at h
    · simp at h
    · split at h
      · split at h
        · exact Option.noConfusion h
        · simp at h
        · simp only [Option.some.injEq, Prod.mk.injEq] at h
          obtain ⟨h1, -⟩ := h
          subst h1
          exact ⟨_, rfl⟩
      · simp only [Option.some.injEq, Prod.mk.injEq] at h
        obtain ⟨h1, -⟩ := h
        subst h1
        exact ⟨[.connect, .send m], rfl⟩

lemma tcpipTransferBody_error_trace (cb : ConnBehavior) (m : Str) (rr : Bool) (tr : List TraceEv)
    (em : Str) (h : tcpipTransferBody cb m rr = some (tr, .error em)) :
    TraceEv.shutdown ∉ tr ∧ TraceEv.close ∉ tr := by
  unfold tcpipTransferBody at h
  split at h
  · simp only [Option.some.injEq, Prod.mk.injEq] at h
    obtain ⟨h1, -⟩ := h
    subst h1
    simp
  · split at h
    · simp only [Option.some.injEq, Prod.mk.injEq] at h
      obtain ⟨h1, -⟩ := h
      subst h1
      simp
    · split at h
      · split at h
        · exact Option.noConfusion h
        · simp only [Option.some.injEq, Prod.mk.injEq] at h
          obtain ⟨h1, -⟩ := h
          subst h1
          simp [List.mem_replicate]
        · simp at h
      · simp at h

/-- C8 (amended): on the success path (`statusCode` 0) the direct transport
shuts down and closes its socket before returning; but on the exception path
(`statusCode` -1) it returns the error result without performing `shutdown`
or `close` — the claimed close-on-every-path does not hold. -/
theorem C8_thm : ∀ (cb : ConnBehavior) (m : Str) (rr : Bool) (tr : List TraceEv)
    (c : Int) (p : Str), tcpipTransfer cb m rr = some (tr, c, p) →
    (c = 0 → ∃ pre, tr = pre ++ [TraceEv.shutdown, TraceEv.close]) ∧
    (c ≠ 0 → TraceEv.shutdown ∉ tr ∧ TraceEv.close ∉ tr) := by
  intro cb m rr tr c p h
  constructor
  · intro hc
    subst hc
    exact tcpipTransferBody_ok_trace cb m rr tr _ (tcpipTransfer_zero_inv cb m rr tr p h)
  · intro hc
    cases tcpipTransfer_inv cb m rr tr c p h with
    | inl h' => exact absurd (tcpipTransferBody_ok_code cb m rr tr _ h') hc
    | inr h' =>
      obtain ⟨-, em, -, h'⟩ := h'
      exact tcpipTransferBody_error_trace cb m rr tr em h'

/-- Witness for C8 at concrete inputs: a successful one-chunk read closes
the socket, a receive timeout does not. -/
theorem C8_wit :
    (∃ pre, ([.connect, .send "q\n".toList, .recv, .shutdown, .close] :
      List TraceEv) = pre ++ [TraceEv.shutdown, TraceEv.close]) ∧
    (TraceEv.shutdown ∉ ([.connect, .send "q\n".toList, .recv] : List TraceEv) ∧
      TraceEv.close ∉ ([.connect, .send "q\n".toList, .recv] : List TraceEv)) :=
  ⟨(C8_thm ⟨none, none, [.ok "ok\n".toList]⟩ "q\n".toList true
      [.connect, .send "q\n".toList, .recv, .shutdown, .close] 0 "ok\n".toList rfl).1 rfl,
   (C8_thm ⟨none, none, [.error "timed out".toList]⟩ "q\n".toList true
      [.connect, .send "q\n".toList, .recv] (-1) (tcpipErrTag ++ "timed out".toList) rfl).2
      (by decide)⟩

/-- C8 counterexample: on a receive exception the call returns with neither
`shutdown` nor `close` in its socket-operation trace, refuting
"closes its socket connection on every exit path including the
error/exception path". -/
theorem C8_cex :
    tcpipTransfer ⟨none, none, [.error "timed out".toList]⟩ "q\n".toList true =
      some ([.connect, .send "q\n".toList, .recv], -1, tcpipErrTag ++ "timed out".toList) ∧
    TraceEv.shutdown ∉ ([.connect, .send "q\n".toList, .recv] : List TraceEv) ∧
    TraceEv.close ∉ ([.connect, .send "q\n".toList, .recv] : List TraceEv) :=
  ⟨rfl, by decide, by decide⟩

lemma recvLoop_ok_spec : ∀ (recvs : List (Except Str Str)) (acc : Str) (n : Nat) (p : Str),
    recvLoop recvs acc = some (n, .ok p) →
    ∃ chunks : List Str,
      recvs.take n = chunks.map Except.ok ∧
      chunks.length = n ∧
      p = acc ++ chunks.flatten ∧
      p.getLast? = some termChar ∧
      ∀ j, 1 ≤ j → j < n →
        acc ++ (chunks.take j).flatten ≠ [] ∧
        (acc ++ (chunks.take j).flatten).getLast? ≠ some termChar := by
  intro recvs
  induction recvs with
  | nil => intro acc n p h; exact Option.noConfusion h
  | cons hd tl ih =>
    intro acc n p h
    cases hd with
    | error m => simp [recvLoop] at h
    | ok chunk =>
      simp only [recvLoop] at h
      cases hl : (acc ++ chunk).getLast? with
      | none =>
        simp only [hl] at h
        simp at h
      | some c =>
        simp only [hl] at h
        by_cases hc : c = termChar
        · rw [if_pos hc] at h
          simp only [Option.some.injEq, Prod.mk.injEq, Except.ok.injEq] at h
          obtain ⟨hn, hp⟩ := h
          subst hn
          subst hp
          refine ⟨[chunk], rfl, rfl, by simp, ?_, ?_⟩
          · rw [hl, hc]
          · intro j h1 h2
            exact absurd h2 (by omega)
        · rw [if_neg hc] at h
          cases hr : recvLoop tl (acc ++ chunk) with
          | none =>
            simp only [hr] at h
            exact Option.noConfusion h
          | some nr =>
            obtain ⟨n', r⟩ := nr
            simp only [hr] at h
            simp only [Option.some.injEq, Prod.mk.injEq] at h
            obtain ⟨hn, hrp⟩ := h
            subst hn
            subst hrp
            obtain ⟨chunks, htake, hlen, hp, hlast, hmin⟩ := ih (acc ++ chunk) n' p hr
            refine ⟨chunk :: chunks, ?_, by simp [hlen], ?_, hlast, ?_⟩
            · rw [List.take_succ_cons, htake]
              rfl
            · rw [hp, List.flatten_cons, List.append_assoc]
            · intro j h1 h2
              obtain ⟨jj, rfl⟩ : ∃ jj, j = jj + 1 := ⟨j - 1, by omega⟩
              rw [List.take_succ_cons, List.flatten_cons, ← List.append_assoc]
              rcases Nat.eq_zero_or_pos jj with hz | hpos
              · subst hz
                simp only [List.take_zero, List.flatten_nil, List.append_nil]
                constructor
                · intro he
                  rw [he] at hl
                  simp at hl
                · rw [hl]
                  intro hh
                  exact hc (Option.some.inj hh)
              · exact hmin jj hpos (by omega)

lemma tcpipTransferBody_ok_recv (cb : ConnBehavior) (m : Str) (tr : List TraceEv)
    (c : Int) (p : Str) (h : tcpipTransferBody cb m true = some (tr, .ok (c, p))) :
    ∃ n, recvLoop cb.recvs [] = some (n, .ok p) := by
  unfold tcpipTransferBody at h
  split at h
  · simp at h
  · split at h
    · simp at h
    · rw [if_pos rfl] at h
      cases hr : recvLoop cb.recvs [] with
      | none => rw [hr] at h; exact Option.noConfusion h
      | some nr =>
        obtain ⟨n, r⟩ := nr
        cases r with
        | error em => simp only [hr] at h; simp at h
        | ok msg =>
          simp only [hr] at h
          simp only [Option.some.injEq, Prod.mk.injEq, Except.ok.injEq] at h
          exact ⟨n, by rw [h.2.2]⟩

/-- C5 (amended): a successful direct-transport read returns the
concatenation of the received chunks, reading until the first point at which
the accumulated buffer's *last* byte equals the terminator (terminator
retained); every strictly earlier accumulation is nonempty and does not end
with the terminator.  (The read does not stop at the first *occurrence* of
the terminator inside the stream: a chunk may carry data beyond it, which is
kept.) -/
theorem C5_thm : ∀ (cb : ConnBehavior) (m : Str) (tr : List TraceEv) (p : Str),
    tcpipTransfer cb m true = some (tr, 0, p) →
    ∃ (n : Nat) (chunks : List Str),
      cb.recvs.take n = chunks.map Except.ok ∧
      chunks.length = n ∧
      p = chunks.flatten ∧
      p.getLast? = some termChar ∧
      ∀ j, 1 ≤ j → j < n →
        (chunks.take j).flatten ≠ [] ∧
        ((chunks.take j).flatten).getLast? ≠ some termChar := by
  intro cb m tr p h
  obtain ⟨n, hr⟩ := tcpipTransferBody_ok_recv cb m tr 0 p (tcpipTransfer_zero_inv cb m true tr p h)
  obtain ⟨chunks, htake, hlen, hp, hlast, hmin⟩ := recvLoop_ok_spec cb.recvs [] n p hr
  refine ⟨n, chunks, htake, hlen, by simpa using hp, hlast, ?_⟩
  intro j h1 h2
  have := hmin j h1 h2
  simpa using this

/-- Witness for C5: a device reply arriving in two chunks. -/
theorem C5_wit :
    tcpipTransfer ⟨none, none, [.ok "12.".toList, .ok "500\n".toList]⟩ "q\n".toList true =
      some ([.connect, .send "q\n".toList, .recv, .recv, .shutdown, .close], 0,
        "12.500\n".toList) ∧
    (∃ (n : Nat) (chunks : List Str),
      ([.ok "12.".toList, .ok "500\n".toList] : List (Except Str Str)).take n =
        chunks.map Except.ok ∧
      chunks.length = n ∧
      "12.500\n".toList = chunks.flatten ∧
      ("12.500\n".toList : Str).getLast? = some termChar ∧
      ∀ j, 1 ≤ j → j < n →
        (chunks.take j).flatten ≠ [] ∧
        ((chunks.take j).flatten).getLast? ≠ some termChar) :=
  ⟨rfl, C5_thm ⟨none, none, [.ok "12.".toList, .ok "500\n".toList]⟩ "q\n".toList
    [.connect, .send "q\n".toList, .recv, .recv, .shutdown, .close] "12.500\n".toList rfl⟩

/-- C5 counterexample: a single received chunk `"a\nb\n"` contains the
terminator mid-stream; the call returns the whole chunk `"a\nb\n"`, not the
bytes up to and including the first terminator occurrence (`"a\n"`), so the
claim as stated is false. -/
theorem C5_cex :
    tcpipTransfer ⟨none, none, [.ok "a\nb\n".toList]⟩ "q\n".toList true =
      some ([.connect, .send "q\n".toList, .recv, .shutdown, .close], 0, "a\nb\n".toList) ∧
    upToFirstTerminator "a\nb\n".toList = "a\n".toList ∧
    ("a\nb\n".toList : Str) ≠ "a\n".toList :=
  ⟨rfl, rfl, by decide⟩

section GpiboeEquations

variable (addr : Str) (cb1 cb2 : ConnBehavior) (m : Str) (rr : Bool)

lemma gpiboe_eq_w_none (h1 : tcpipTransfer cb1 (wFrame addr m) true = none) :
    gpiboeTransfer addr cb1 cb2 m rr = none := by
  unfold gpiboeTransfer
  rw [h1]

lemma gpiboe_eq_w_fail (tr1 : List TraceEv) (c : Int) (p : Str)
    (h1 : tcpipTransfer cb1 (wFrame addr m) true = some (tr1, c, p)) (hc : c ≠ 0) :
    gpiboeTransfer addr cb1 cb2 m rr = some (tr1, .ok (c, p)) := by
  unfold gpiboeTransfer
  rw [h1]
  exact if_pos hc

lemma gpiboe_eq_parse_error (tr1 : List TraceEv) (p : Str) (e : PyErr)
    (h1 : tcpipTransfer cb1 (wFrame addr m) true = some (tr1, 0, p))
    (hp : parseGpiboeReceiveMessage p = .error e) :
    gpiboeTransfer addr cb1 cb2 m rr = some (tr1, .error e) := by
  simp [gpiboeTransfer, h1, hp]

lemma gpiboe_eq_ack_fail (tr1 : List TraceEv) (p : Str) (s : Int) (rem : Str)
    (h1 : tcpipTransfer cb1 (wFrame addr m) true = some (tr1, 0, p))
    (hp : parseGpiboeReceiveMessage p = .ok (s, rem)) (hs : s ≠ 0) :
    gpiboeTransfer addr cb1 cb2 m rr = some (tr1, .ok (s, rem)) := by
  simp [gpiboeTransfer, h1, hp, hs]

lemma gpiboe_eq_noread (tr1 : List TraceEv) (p : Str) (rem : Str)
    (h1 : tcpipTransfer cb1 (wFrame addr m) true = some (tr1, 0, p))
    (hp : parseGpiboeReceiveMessage p = .ok (0, rem)) :
    gpiboeTransfer addr cb1 cb2 m false = some (tr1, .ok (0, rem)) := by
  simp [gpiboeTransfer, h1, hp]

lemma gpiboe_eq_r_none (tr1 : List TraceEv) (p : Str) (rem : Str)
    (h1 : tcpipTransfer cb1 (wFrame addr m) true = some (tr1, 0, p))
    (hp : parseGpiboeReceiveMessage p = .ok (0, rem))
    (h2 : tcpipTransfer cb2 (rFrame addr) true = none) :
    gpiboeTransfer addr cb1 cb2 m true = none := by
  simp [gpiboeTransfer, h1, hp, h2]

lemma gpiboe_eq_r_fail (tr1 tr2 : List TraceEv) (p : Str) (rem : Str) (c2 : Int) (p2 : Str)
    (h1 : tcpipTransfer cb1 (wFrame addr m) true = some (tr1, 0, p))
    (hp : parseGpiboeReceiveMessage p = .ok (0, rem))
    (h2 : tcpipTransfer cb2 (rFrame addr) true = some (tr2, c2, p2)) (hc2 : c2 ≠ 0) :
    gpiboeTransfer addr cb1 cb2 m true = some (tr1 ++ tr2, .ok (c2, p2)) := by
  simp [gpiboeTransfer, h1, hp, h2, hc2]

lemma gpiboe_eq_r_parse_error (tr1 tr2 : List TraceEv) (p : Str) (rem : Str) (p2 : Str)
    (e : PyErr)
    (h1 : tcpipTransfer cb1 (wFrame addr m) true = some (tr1, 0, p))
    (hp : parseGpiboeReceiveMessage p = .ok (0, rem))
    (h2 : tcpipTransfer cb2 (rFrame addr) true = some (tr2, 0, p2))
    (hp2 : parseGpiboeReceiveMessage p2 = .error e) :
    gpiboeTransfer addr cb1 cb2 m true = some (tr1 ++ tr2, .error e) := by
  simp [gpiboeTransfer, h1, hp, h2, hp2]

lemma gpiboe_eq_r_ok (tr1 tr2 : List TraceEv) (p : Str) (rem : Str) (p2 : Str)
    (g2 : Int × Str)
    (h1 : tcpipTransfer cb1 (wFrame addr m) true = some (tr1, 0, p))
    (hp : parseGpiboeReceiveMessage p = .ok (0, rem))
    (h2 : tcpipTransfer cb2 (rFrame addr) true = some (tr2, 0, p2))
    (hp2 : parseGpiboeReceiveMessage p2 = .ok g2) :
    gpiboeTransfer addr cb1 cb2 m true = some (tr1 ++ tr2, .ok g2) := by
  simp [gpiboeTransfer, h1, hp, h2, hp2]

end GpiboeEquations

lemma gpiboeTransfer_sends (addr : Str) (cb1 cb2 : ConnBehavior) (m : Str) (rr : Bool)
    (tr : List TraceEv) (res : Except PyErr (Int × Str))
    (h : gpiboeTransfer addr cb1 cb2 m rr = some (tr, res)) :
    sendsOf tr = [] ∨ sendsOf tr = [wFrame addr m] ∨
      (rr = true ∧ sendsOf tr = [wFrame addr m, rFrame addr]) := by
  cases ht1 : tcpipTransfer cb1 (wFrame addr m) true with
  | none =>
    rw [gpiboe_eq_w_none addr cb1 cb2 m rr ht1] at h
    exact Option.noConfusion h
  | some x =>
    obtain ⟨tr1, c, p⟩ := x
    by_cases hc : c = 0
    · subst hc
      have hw1 : sendsOf tr1 = [wFrame addr m] := tcpipTransfer_zero_sends cb1 _ true tr1 p ht1
      cases hp : parseGpiboeReceiveMessage p with
      | error e =>
        rw [gpiboe_eq_parse_error addr cb1 cb2 m rr tr1 p e ht1 hp] at h
        simp only [Option.some.injEq, Prod.mk.injEq] at h
        obtain ⟨h1, -⟩ := h
        subst h1
        exact Or.inr (Or.inl hw1)
      | ok gst =>
        obtain ⟨s, rem⟩ := gst
        by_cases hs : s = 0
        · subst hs
          cases rr with
          | false =>
            rw [gpiboe_eq_noread addr cb1 cb2 m tr1 p rem ht1 hp] at h
            simp only [Option.some.injEq, Prod.mk.injEq] at h
            obtain ⟨h1, -⟩ := h
            subst h1
            exact Or.inr (Or.inl hw1)
          | true =>
            cases ht2 : tcpipTransfer cb2 (rFrame addr) true with
            | none =>
              rw [gpiboe_eq_r_none addr cb1 cb2 m tr1 p rem ht1 hp ht2] at h
              exact Option.noConfusion h
            | some y =>
              obtain ⟨tr2, c2, p2⟩ := y
              have hr2 : sendsOf tr2 = [] ∨ sendsOf tr2 = [rFrame addr] :=
                tcpipTransfer_sends cb2 _ true tr2 c2 p2 ht2
              have htr : tr = tr1 ++ tr2 → sendsOf tr = [wFrame addr m] ∨
                  sendsOf tr = [wFrame addr m, rFrame addr] := by
                intro he
                subst he
                rw [sendsOf_append, hw1]
                cases hr2 with
                | inl h2 => rw [h2]; exact Or.inl rfl
                | inr h2 => rw [h2]; exact Or.inr rfl
              have fin : tr = tr1 ++ tr2 →
                  sendsOf tr = [] ∨ sendsOf tr = [wFrame addr m] ∨
                    (true = true ∧ sendsOf tr = [wFrame addr m, rFrame addr]) := by
                intro he
                cases htr he with
                | inl hh => exact Or.inr (Or.inl hh)
                | inr hh => exact Or.inr (Or.inr ⟨rfl, hh⟩)
              by_cases hc2 : c2 = 0
              · subst hc2
                cases hp2 : parseGpiboeReceiveMessage p2 with
                | error e =>
                  rw [gpiboe_eq_r_parse_error addr cb1 cb2 m tr1 tr2 p rem p2 e ht1 hp ht2 hp2]
                    at h
                  simp only [Option.some.injEq, Prod.mk.injEq] at h
                  exact fin h.1.symm
                | ok g2 =>
                  rw [gpiboe_eq_r_ok addr cb1 cb2 m tr1 tr2 p rem p2 g2 ht1 hp ht2 hp2] at h
                  simp only [Option.some.injEq, Prod.mk.injEq] at h
                  exact fin h.1.symm
              · rw [gpiboe_eq_r_fail addr cb1 cb2 m tr1 tr2 p rem c2 p2 ht1 hp ht2 hc2] at h
                simp only [Option.some.injEq, Prod.mk.injEq] at h
                exact fin h.1.symm
        · rw [gpiboe_eq_ack_fail addr cb1 cb2 m rr tr1 p s rem ht1 hp hs] at h
          simp only [Option.some.injEq, Prod.mk.injEq] at h
          obtain ⟨h1, -⟩ := h
          subst h1
          exact Or.inr (Or.inl hw1)
    · rw [gpiboe_eq_w_fail addr cb1 cb2 m rr tr1 c p ht1 hc] at h
      simp only [Option.some.injEq, Prod.mk.injEq] at h
      obtain ⟨h1, -⟩ := h
      subst h1
      cases tcpipTransfer_sends cb1 _ true tr1 c p ht1 with
      | inl hh => exact Or.inl hh
      | inr hh => exact Or.inr (Or.inl hh)

/-- C3: every gateway-framed transfer sends at most the Write frame
`"W|" + gpibAddress + "|" + message` first, followed by at most one Read
frame, the latter only when a response is expected; and whenever the parsed
Write acknowledgement status is non-zero, the transfer returns the
acknowledgement's status and payload verbatim with only the Write frame
sent (no Read frame). -/
theorem C3_thm : ∀ (addr : Str) (cb1 cb2 : ConnBehavior) (m : Str) (rr : Bool)
    (tr : List TraceEv) (res : Except PyErr (Int × Str)),
    gpiboeTransfer addr cb1 cb2 m rr = some (tr, res) →
    (sendsOf tr = [] ∨ sendsOf tr = [wFrame addr m] ∨
      (rr = true ∧ sendsOf tr = [wFrame addr m, rFrame addr])) ∧
    (∀ (tr1 : List TraceEv) (p : Str) (s : Int) (rem : Str),
      tcpipTransfer cb1 (wFrame addr m) true = some (tr1, 0, p) →
      parseGpiboeReceiveMessage p = .ok (s, rem) → s ≠ 0 →
      tr = tr1 ∧ res = .ok (s, rem) ∧ sendsOf tr = [wFrame addr m]) := by
  intro addr cb1 cb2 m rr tr res h
  refine ⟨gpiboeTransfer_sends addr cb1 cb2 m rr tr res h, ?_⟩
  intro tr1 p s rem ht1 hp hs
  have he := (gpiboe_eq_ack_fail addr cb1 cb2 m rr tr1 p s rem ht1 hp hs).symm.trans h
  simp only [Option.some.injEq, Prod.mk.injEq] at he
  obtain ⟨h1, h2⟩ := he
  subst h1
  exact ⟨rfl, h2.symm, tcpipTransfer_zero_sends cb1 _ true _ p ht1⟩

/-- Witness for C3: a gateway acknowledging with device-error status 5 —
the ack is returned verbatim and only the Write frame is sent. -/
theorem C3_wit :
    gpiboeTransfer "5".toList ⟨none, none, [.ok "5|device error\n".toList]⟩
        ⟨none, none, []⟩ "CMD\n".toList true =
      some ([.connect, .send (wFrame "5".toList "CMD\n".toList), .recv, .shutdown, .close],
        .ok (5, "device error\n".toList)) ∧
    ([.connect, .send (wFrame "5".toList "CMD\n".toList), .recv, .shutdown, .close] :
        List TraceEv) =
      [.connect, .send (wFrame "5".toList "CMD\n".toList), .recv, .shutdown, .close] ∧
    (Except.ok (5, "device error\n".toList) : Except PyErr (Int × Str)) =
      .ok (5, "device error\n".toList) ∧
    sendsOf [.connect, .send (wFrame "5".toList "CMD\n".toList), .recv, .shutdown, .close] =
      [wFrame "5".toList "CMD\n".toList] :=
  ⟨rfl,
    (C3_thm "5".toList ⟨none, none, [.ok "5|device error\n".toList]⟩ ⟨none, none, []⟩
      "CMD\n".toList true _ _ rfl).2
      [.connect, .send (wFrame "5".toList "CMD\n".toList), .recv, .shutdown, .close]
      "5|device error\n".toList 5 "device error\n".toList rfl rfl (by decide)⟩

lemma GIC.write_eq (g : GIC) (cb1 cb2 : ConnBehavior) (msg : Str) (hm : msg ≠ []) :
    g.write cb1 cb2 msg = (transferDispatch g cb1 cb2 (terminate msg) false).map
      (fun x => match x.2 with
        | .error e => (x.1, .error e)
        | .ok s => (x.1, handleStatus s)) := by
  unfold GIC.write pyLastChar
  cases hml : msg.getLast? with
  | none => exact absurd (List.getLast?_eq_none_iff.mp hml) hm
  | some c => rfl

lemma GIC.query_eq (g : GIC) (cb1 cb2 : ConnBehavior) (msg : Str) (hm : msg ≠ []) :
    g.query cb1 cb2 msg = (transferDispatch g cb1 cb2 (terminate msg) true).map
      (fun x => match x.2 with
        | .error e => (x.1, .error e)
        | .ok s => (x.1, handleStatus s)) := by
  unfold GIC.query pyLastChar
  cases hml : msg.getLast? with
  | none => exact absurd (List.getLast?_eq_none_iff.mp hml) hm
  | some c => rfl

lemma pipelineMap_inv (o : Option (List TraceEv × Except PyErr (Int × Str)))
    (tr : List TraceEv) (res : Except PyErr PyVal)
    (h : o.map (fun x => match x.2 with
        | .error e => (x.1, .error e)
        | .ok s => (x.1, handleStatus s)) = some (tr, res)) :
    ∃ r', o = some (tr, r') := by
  cases o with
  | none => exact Option.noConfusion h
  | some x =>
    obtain ⟨x1, x2⟩ := x
    simp only [Option.map_some'] at h
    cases x2 with
    | error e =>
      simp only [Option.some.injEq, Prod.mk.injEq] at h
      exact ⟨.error e, by rw [h.1]⟩
    | ok s =>
      simp only [Option.some.injEq, Prod.mk.injEq] at h
      exact ⟨.ok s, by rw [h.1]⟩

lemma transferDispatch_inv_direct (g : GIC) (cb1 cb2 : ConnBehavior) (m : Str) (rr : Bool)
    (tr : List TraceEv) (r' : Except PyErr (Int × Str))
    (hg : g.connection_type ≠ "gpiboe".toList)
    (h : transferDispatch g cb1 cb2 m rr = some (tr, r')) :
    ∃ c p, tcpipTransfer cb1 m rr = some (tr, c, p) ∧ r' = .ok (c, p) := by
  unfold transferDispatch at h
  rw [if_neg hg] at h
  cases ht : tcpipTransfer cb1 m rr with
  | none => rw [ht] at h; exact Option.noConfusion h
  | some x =>
    obtain ⟨tr0, c, p⟩ := x
    rw [ht] at h
    simp only [Option.map_some'] at h
    simp only [Option.some.injEq, Prod.mk.injEq] at h
    obtain ⟨h1, h2⟩ := h
    subst h1
    exact ⟨c, p, rfl, h2.symm⟩

lemma transferDispatch_inv_gpiboe (g : GIC) (cb1 cb2 : ConnBehavior) (m : Str) (rr : Bool)
    (tr : List TraceEv) (r' : Except PyErr (Int × Str))
    (hg : g.connection_type = "gpiboe".toList)
    (h : transferDispatch g cb1 cb2 m rr = some (tr, r')) :
    gpiboeTransfer (pyStrOptInt g.device_gpib_address) cb1 cb2 m rr = some (tr, r') := by
  unfold transferDispatch at h
  rw [if_pos hg] at h
  exact h

/-- C6: for every non-empty command passed to `write` or `query`, the text
handed to the transport is the command with the terminator appended exactly
once — appended when absent, unchanged (never doubled) when already
present.  For a direct connection the sent frame, if any, is exactly that
text; for a gateway connection the first sent frame embeds it in the Write
frame. -/
theorem C6_thm : ∀ (g : GIC) (cb1 cb2 : ConnBehavior) (msg : Str) (tr : List TraceEv)
    (res : Except PyErr PyVal),
    msg ≠ [] →
    (g.write cb1 cb2 msg = some (tr, res) ∨ g.query cb1 cb2 msg = some (tr, res)) →
    (g.connection_type ≠ "gpiboe".toList →
      sendsOf tr = [] ∨
      sendsOf tr = [if msg.getLast? = some termChar then msg else msg ++ [termChar]]) ∧
    (g.connection_type = "gpiboe".toList →
      sendsOf tr = [] ∨
      (sendsOf tr).head? = some (wFrame (pyStrOptInt g.device_gpib_address)
        (if msg.getLast? = some termChar then msg else msg ++ [termChar]))) := by
  intro g cb1 cb2 msg tr res hm hcall
  have hdisp : ∃ rr r', transferDispatch g cb1 cb2 (terminate msg) rr = some (tr, r') := by
    cases hcall with
    | inl hw =>
      rw [GIC.write_eq g cb1 cb2 msg hm] at hw
      obtain ⟨r', hr'⟩ := pipelineMap_inv _ tr res hw
      exact ⟨false, r', hr'⟩
    | inr hq =>
      rw [GIC.query_eq g cb1 cb2 msg hm] at hq
      obtain ⟨r', hr'⟩ := pipelineMap_inv _ tr res hq
      exact ⟨true, r', hr'⟩
  obtain ⟨rr, r', hd⟩ := hdisp
  constructor
  · intro hg
    obtain ⟨c, p, ht, -⟩ := transferDispatch_inv_direct g cb1 cb2 (terminate msg) rr tr r' hg hd
    exact tcpipTransfer_sends cb1 (terminate msg) rr tr c p ht
  · intro hg
    have hgp := transferDispatch_inv_gpiboe g cb1 cb2 (terminate msg) rr tr r' hg hd
    rcases gpiboeTransfer_sends (pyStrOptInt g.device_gpib_address) cb1 cb2
      (terminate msg) rr tr r' hgp with h0 | h1 | ⟨-, h2⟩
    · exact Or.inl h0
    · right
      rw [h1]
      rfl
    · right
      rw [h2]
      rfl

/-- Witness for C6: a direct-connection `query` of the unterminated command
`"CMD"` sends exactly `"CMD\n"`. -/
theorem C6_wit :
    sendsOf [.connect, .send "CMD\n".toList, .recv, .shutdown, .close] = [] ∨
    sendsOf [.connect, .send "CMD\n".toList, .recv, .shutdown, .close] =
      [if ("CMD".toList : Str).getLast? = some termChar then "CMD".toList
       else "CMD".toList ++ [termChar]] :=
  (C6_thm ⟨"tcpip".toList, some "ip".toList, 5025, none⟩ ⟨none, none, [.ok "ok\n".toList]⟩
    ⟨none, none, []⟩ "CMD".toList
    [.connect, .send "CMD\n".toList, .recv, .shutdown, .close]
    (.ok (.list2 (.int 0) (.str "ok\n".toList))) (by decide) (Or.inr rfl)).1 (by decide)

/-- C1 (amended): for every connection kind (the transfer selected by the
kind being `transferDispatch`, i.e. the gateway transfer for `'gpiboe'` and
the direct transfer otherwise) and every transfer that yields a status pair
`(statusCode, payload)`, both `write` and `query` funnel it through
`__HandleStatus`: on `statusCode` 0 the caller receives the *whole
two-element status list* `[0, payload]` — not the bare payload text — with
the payload unaltered, and on non-zero `statusCode` the call raises
`ConnectionError` carrying the status code and the payload.  In the
end-to-end direct scenario, a device reply `"12.500\n"` comes back as the
list `[0, "12.500\n"]` with no characters stripped. -/
theorem C1_thm :
    (∀ (g : GIC) (cb1 cb2 : ConnBehavior) (msg : Str) (tr : List TraceEv) (c : Int) (p : Str),
      msg ≠ [] →
      transferDispatch g cb1 cb2 (terminate msg) true = some (tr, .ok (c, p)) →
      (c = 0 → g.query cb1 cb2 msg = some (tr, .ok (.list2 (.int 0) (.str p)))) ∧
      (c ≠ 0 → g.query cb1 cb2 msg = some (tr, .error (.connectionError
        ("ERROR: ".toList ++ (toString c).toList ++ ", ".toList ++ p))))) ∧
    (∀ (g : GIC) (cb1 cb2 : ConnBehavior) (msg : Str) (tr : List TraceEv) (c : Int) (p : Str),
      msg ≠ [] →
      transferDispatch g cb1 cb2 (terminate msg) false = some (tr, .ok (c, p)) →
      (c = 0 → g.write cb1 cb2 msg = some (tr, .ok (.list2 (.int 0) (.str p)))) ∧
      (c ≠ 0 → g.write cb1 cb2 msg = some (tr, .error (.connectionError
        ("ERROR: ".toList ++ (toString c).toList ++ ", ".toList ++ p))))) ∧
    GIC.query ⟨"tcpip".toList, some "10.0.0.1".toList, 5025, none⟩
        ⟨none, none, [.ok "12.500\n".toList]⟩ ⟨none, none, []⟩ "MEAS:VOLT?".toList =
      some ([.connect, .send "MEAS:VOLT?\n".toList, .recv, .shutdown, .close],
        .ok (.list2 (.int 0) (.str "12.500\n".toList))) := by
  refine ⟨?_, ?_, rfl⟩
  · intro g cb1 cb2 msg tr c p hm hd
    constructor
    · intro hc
      subst hc
      rw [GIC.query_eq g cb1 cb2 msg hm, hd]
      rfl
    · intro hc
      rw [GIC.query_eq g cb1 cb2 msg hm, hd]
      show some (tr, handleStatus (c, p)) = _
      unfold handleStatus
      rw [if_neg hc]
  · intro g cb1 cb2 msg tr c p hm hd
    constructor
    · intro hc
      subst hc
      rw [GIC.write_eq g cb1 cb2 msg hm, hd]
      rfl
    · intro hc
      rw [GIC.write_eq g cb1 cb2 msg hm, hd]
      show some (tr, handleStatus (c, p)) = _
      unfold handleStatus
      rw [if_neg hc]

/-- Witness for C1: a gateway-framed `query` whose read-back has status 0
returns the status list `[0, "3.14\n"]`, and a direct `write` whose
transfer fails with status -1 raises `ConnectionError` carrying code and
payload. -/
theorem C1_wit :
    GIC.query ⟨"gpiboe".toList, some "gw".toList, 5025, some 5⟩
        ⟨none, none, [.ok "0|\n".toList]⟩ ⟨none, none, [.ok "0|3.14\n".toList]⟩
        "MEAS?".toList =
      some ([.connect, .send "W|5|MEAS?\n".toList, .recv, .shutdown, .close,
             .connect, .send "R|5\n".toList, .recv, .shutdown, .close],
        .ok (.list2 (.int 0) (.str "3.14\n".toList))) ∧
    GIC.write ⟨"tcpip".toList, some "10.0.0.1".toList, 5025, none⟩
        ⟨some "timed out".toList, none, []⟩ ⟨none, none, []⟩ "OUTP 1".toList =
      some ([], .error (.connectionError
        ("ERROR: ".toList ++ (toString (-1 : Int)).toList ++ ", ".toList ++
          (tcpipErrTag ++ "timed out".toList)))) :=
  ⟨(C1_thm.1 ⟨"gpiboe".toList, some "gw".toList, 5025, some 5⟩
      ⟨none, none, [.ok "0|\n".toList]⟩ ⟨none, none, [.ok "0|3.14\n".toList]⟩
      "MEAS?".toList
      [.connect, .send "W|5|MEAS?\n".toList, .recv, .shutdown, .close,
       .connect, .send "R|5\n".toList, .recv, .shutdown, .close]
      0 "3.14\n".toList (by decide) rfl).1 rfl,
   (C1_thm.2.1 ⟨"tcpip".toList, some "10.0.0.1".toList, 5025, none⟩
      ⟨some "timed out".toList, none, []⟩ ⟨none, none, []⟩ "OUTP 1".toList
      [] (-1) (tcpipErrTag ++ "timed out".toList) (by decide) rfl).2 (by decide)⟩

/-- C1 counterexample: in the end-to-end direct scenario the caller receives
the two-element list `[0, "12.500\n"]`, which is not the bare text
`"12.500\n"`; the claim that `query` returns "exactly the text" is false
(the payload sits unaltered in the second slot of the returned status
list). -/
theorem C1_cex :
    GIC.query ⟨"tcpip".toList, some "10.0.0.1".toList, 5025, none⟩
        ⟨none, none, [.ok "12.500\n".toList]⟩ ⟨none, none, []⟩ "MEAS:VOLT?".toList =
      some ([.connect, .send "MEAS:VOLT?\n".toList, .recv, .shutdown, .close],
        .ok (.list2 (.int 0) (.str "12.500\n".toList))) ∧
    PyVal.list2 (.int 0) (.str "12.500\n".toList) ≠ PyVal.str "12.500\n".toList :=
  ⟨rfl, by decide⟩

/-- C10: a gateway reply whose text before the first `'|'` (or the whole
reply when `'|'` is absent) is not a valid integer makes
`__ParseGpiboeReceiveMessage` raise `ValueError`, and that exception
propagates uncaught out of `query` and `write` rather than being converted
into a `statusCode` -1 result. -/
theorem C10_thm :
    (∀ a b, '|' ∉ a → pyInt a = none →
      parseGpiboeReceiveMessage (a ++ '|' :: b) = .error (.valueError (intErrMsg a))) ∧
    (∀ a, '|' ∉ a → pyInt a = none →
      parseGpiboeReceiveMessage a = .error (.valueError (intErrMsg a))) ∧
    (∀ (g : GIC) (cb1 cb2 : ConnBehavior) (msg : Str) (tr1 : List TraceEv) (p : Str)
      (e : PyErr),
      g.connection_type = "gpiboe".toList → msg ≠ [] →
      tcpipTransfer cb1 (wFrame (pyStrOptInt g.device_gpib_address) (terminate msg)) true =
        some (tr1, 0, p) →
      parseGpiboeReceiveMessage p = .error e →
      g.query cb1 cb2 msg = some (tr1, .error e) ∧
      g.write cb1 cb2 msg = some (tr1, .error e)) := by
  refine ⟨?_, ?_, ?_⟩
  · intro a b h hk
    unfold parseGpiboeReceiveMessage
    simp only [splitBarAux_first a b h, hk]
  · intro a h hk
    unfold parseGpiboeReceiveMessage
    simp only [splitBarAux_no_bar a h, hk]
  · intro g cb1 cb2 msg tr1 p e hg hm ht hp
    constructor
    · rw [GIC.query_eq g cb1 cb2 msg hm]
      have hd : transferDispatch g cb1 cb2 (terminate msg) true = some (tr1, .error e) := by
        unfold transferDispatch
        rw [if_pos hg]
        exact gpiboe_eq_parse_error _ cb1 cb2 _ true tr1 p e ht hp
      rw [hd]
      rfl
    · rw [GIC.write_eq g cb1 cb2 msg hm]
      have hd : transferDispatch g cb1 cb2 (terminate msg) false = some (tr1, .error e) := by
        unfold transferDispatch
        rw [if_pos hg]
        exact gpiboe_eq_parse_error _ cb1 cb2 _ false tr1 p e ht hp
      rw [hd]
      rfl

/-- Witness for C10: a gateway ack `"X|oops\n"` — `int("X")` raises, and the
`ValueError` escapes `query`. -/
theorem C10_wit :
    GIC.query ⟨"gpiboe".toList, some "gw".toList, 5025, some 5⟩
        ⟨none, none, [.ok "X|oops\n".toList]⟩ ⟨none, none, []⟩ "CMD".toList =
      some ([.connect, .send "W|5|CMD\n".toList, .recv, .shutdown, .close],
        .error (.valueError (intErrMsg "X".toList))) ∧
    GIC.write ⟨"gpiboe".toList, some "gw".toList, 5025, some 5⟩
        ⟨none, none, [.ok "X|oops\n".toList]⟩ ⟨none, none, []⟩ "CMD".toList =
      some ([.connect, .send "W|5|CMD\n".toList, .recv, .shutdown, .close],
        .error (.valueError (intErrMsg "X".toList))) :=
  C10_thm.2.2 ⟨"gpiboe".toList, some "gw".toList, 5025, some 5⟩
    ⟨none, none, [.ok "X|oops\n".toList]⟩ ⟨none, none, []⟩ "CMD".toList
    [.connect, .send "W|5|CMD\n".toList, .recv, .shutdown, .close] "X|oops\n".toList
    (.valueError (intErrMsg "X".toList)) rfl (by decide) rfl rfl
